import Mathlib

/-!
Verification of the coordinate core of `AL_Excel` (`AL_Excel/Coordinates.py`).

The Python module is shallowly embedded below:

* `Index` mirrors the `Index` named tuple `(type, value, absolute)`; the
  `type` field is `Option Axis` (`none` models Python `None`, the
  "Unknown" axis tag) and `value` is `Option Int` (`none` models an
  absent value).
* `Coordinate` mirrors the `Coordinate` class, holding the `_row` and
  `_column` indices produced by `converttotuple`.
* `PyVal` is a closed variant type covering every descriptor shape the
  Python front door can receive (`None`, `int`, `bool`, `str`, `Index`,
  tuples/lists, `Coordinate`).
* Fallible Python functions become `Except CoordError`-valued Lean
  functions; each `CoordError` constructor corresponds to one `raise`
  site (or one organic runtime error such as `None + int`).
* The three compiled regular expressions `FULLRE`, `ROWRE` and
  `COLUMNRE` are embedded as deterministic character-list matchers.
  On these particular patterns backtracking can never produce a match
  that the greedy deterministic scan misses (every optional or repeated
  piece is followed by a token that cannot overlap it), so the matchers
  compute exactly the regex groups the source reads.
-/

/-- Axis tag carried by an `Index`: Python uses the strings `"row"` and
`"column"`, with `None` (modelled as `Option.none` around this type)
for a not-yet-determined axis. -/
inductive Axis where
  | row
  | column
deriving DecidableEq, Repr

/-- The `Index` named tuple of `Coordinates.py`: `(type, value, absolute)`. -/
structure Index where
  type : Option Axis
  value : Option Int
  absolute : Bool
deriving DecidableEq, Repr

/-- The `Coordinate` class: its `_row` and `_column` attributes. -/
structure Coordinate where
  _row : Index
  _column : Index
deriving DecidableEq, Repr

/-- One constructor per distinct error exit of the embedded code.
The comment on each names the Python exception and raise site. -/
inductive CoordError where
  /-- `TypeError("Invalid coordinates: ...")` in `converttotuple` (string arm). -/
  | invalidCoordString
  /-- `TypeError("Cooridinates must be ...")` in `converttotuple` (failed unpack). -/
  | notStringOrTuple
  /-- `ValueError("No Indicies provided")` in `converttotuple`. -/
  | noIndices
  /-- `ValueError("Duplicated Arguments ...")` in `converttotuple`. -/
  | duplicateAxis
  /-- Organic `IndexError` from indexing an empty list. -/
  | indexError
  /-- `ValueError` for a tuple descriptor of length > 2 in `parseindex`. -/
  | badTupleLength
  /-- `ValueError` for an unknown absolute-alias string in `parseindex`. -/
  | unknownAbsoluteString
  /-- `ValueError` for a non-boolean absolute override in `parseindex`. -/
  | badAbsoluteValue
  /-- `ValueError` when the override contradicts an absolute index in `parseindex`. -/
  | absoluteContradiction
  /-- `ValueError("Coordinate part is not a recognized format")` in `parseindex`. -/
  | unrecognizedFormat
  /-- `ValueError("String does not match any identifiable ... patterns")` in `parsecoordregex`. -/
  | patternMismatch
  /-- `SyntaxError("Incomplete coordinate description: missing ...")` in `parsecoordregex`. -/
  | malformedBracket (missing : String)
  /-- `ValueError` from openpyxl `column_index_from_string`. -/
  | invalidColumnName
  /-- `ValueError` from openpyxl `get_column_letter`. -/
  | columnLetterOutOfRange
  /-- Organic `TypeError` (for example comparing `None` with an int). -/
  | pyTypeError
  /-- `AttributeError("Cannot add two Absolute Indices")` in `addindices`. -/
  | doubleAbsolute
  /-- `TypeError("Type mismatch between Indices")` in `addindices`. -/
  | axisMismatch
  /-- `ValueError("Absolute Reference reduced below 0")` in `addindices`. -/
  | invalidAbsoluteResult
  /-- `AttributeError("Cannot add two Absolute references")` in `Coordinate.__add__`. -/
  | doubleAbsoluteCoordinate
  /-- `AttributeError("Invalid values for cooridinate")` wrapper in `Coordinate.__init__`. -/
  | attributeError
  /-- Organic `TypeError` from `None + int` in `addindices`. -/
  | noneAddition
  /-- Exceeded the CPython recursion limit (models `RecursionError`;
  the fuel used below is far larger than any depth reachable here). -/
  | recursionLimit
deriving DecidableEq, Repr

instance {ε α : Type} [DecidableEq ε] [DecidableEq α] : DecidableEq (Except ε α) := fun x y =>
  match x, y with
  | .ok a, .ok b =>
    if h : a = b then .isTrue (congrArg Except.ok h)
    else .isFalse (fun hh => h (Except.ok.inj hh))
  | .error a, .error b =>
    if h : a = b then .isTrue (congrArg Except.error h)
    else .isFalse (fun hh => h (Except.error.inj hh))
  | .ok _, .error _ => .isFalse (fun hh => Except.noConfusion hh)
  | .error _, .ok _ => .isFalse (fun hh => Except.noConfusion hh)

/-- Closed variant type for every Python value shape the descriptor
front door (`Coordinate.__init__` / `converttotuple` / `parseindex`)
dispatches on. -/
inductive PyVal where
  | none
  | int (n : Int)
  | bool (b : Bool)
  | str (s : String)
  | index (i : Index)
  | list (xs : List PyVal)
  | coord (c : Coordinate)

/- String constants used by the embedded code. -/

def missingCloseBracket : String := "]"

def missingOpenBracket : String := "["

def dollarString : String := "$"

def absoluteAliasString : String := "absolute"

def emptyString : String := ""

def pyNoneString : String := "None"

/- Character-level helpers for the regex embeddings. -/

/-- Greedy `\d+`-style split: longest digit prefix and the rest. -/
def takeDigits : List Char → List Char × List Char
  | [] => ([], [])
  | c :: cs =>
    if c.isDigit then
      let r := takeDigits cs
      (c :: r.1, r.2)
    else ([], c :: cs)

/-- Greedy `[A-Z]+`-with-`IGNORECASE` split: longest ASCII-letter prefix. -/
def takeLetters : List Char → List Char × List Char
  | [] => ([], [])
  | c :: cs =>
    if c.isAlpha then
      let r := takeLetters cs
      (c :: r.1, r.2)
    else ([], c :: cs)

/-- Optionally consume one specific character (`x?` in the regexes);
returns the rest and whether the character was taken. -/
def optChar (c : Char) : List Char → List Char × Bool
  | [] => ([], false)
  | x :: xs => if x = c then (xs, true) else (x :: xs, false)

/-- Value of a digit string, as computed by Python `int` on `\d+`. -/
def digitsToNat (ds : List Char) : Nat :=
  ds.foldl (fun a c => a * 10 + (c.toNat - 48)) 0

/-- Groups of one `R1C1`-style axis token
`L(?P<absolute1>\[?)(?P<id>-?\d+)(?P<absolute2>\]?)` (case-insensitive
letter `L`): the full matched text, the two bracket groups, and the
signed integer. -/
structure RCTok where
  text : List Char
  hasOpen : Bool
  n : Int
  hasClose : Bool

/-- Match one `R1C1`-style axis token at the head of the input, as the
`RC` alternatives of `FULLRE` / `ROWRE` / `COLUMNRE` do. Returns the
groups and the unconsumed rest. -/
def matchRCTok (letter : Char) : List Char → Option (RCTok × List Char)
  | [] => Option.none
  | c :: cs =>
    if c.toLower = letter then
      let o := optChar '[' cs
      let m := optChar '-' o.1
      let d := takeDigits m.1
      if d.1 = [] then Option.none
      else
        let cl := optChar ']' d.2
        let mag : Int := Int.ofNat (digitsToNat d.1)
        Option.some
          ({ text := c :: ((if o.2 then ['['] else []) ++ (if m.2 then ['-'] else []) ++
               d.1 ++ (if cl.2 then [']'] else []))
            , hasOpen := o.2
            , n := if m.2 then -mag else mag
            , hasClose := cl.2 }, cl.1)
    else Option.none

/-- Groups of one `A1`-style axis token `(\$?)(body)`: full text,
whether the `$` was present, and the letter/digit body. -/
structure A1Tok where
  text : List Char
  absolute : Bool
  body : List Char

/-- Match `(?P<absolute>\$?)(?P<A1column>[A-Z]+)` (case-insensitive)
at the head of the input. -/
def matchA1Col (cs : List Char) : Option (A1Tok × List Char) :=
  let d := optChar '$' cs
  let ls := takeLetters d.1
  if ls.1 = [] then Option.none
  else Option.some ({ text := (if d.2 then ['$'] else []) ++ ls.1
                     , absolute := d.2, body := ls.1 }, ls.2)

/-- Match `(?P<absolute>\$?)(?P<A1row>\d+)` at the head of the input. -/
def matchA1Row (cs : List Char) : Option (A1Tok × List Char) :=
  let d := optChar '$' cs
  let ds := takeDigits d.1
  if ds.1 = [] then Option.none
  else Option.some ({ text := (if d.2 then ['$'] else []) ++ ds.1
                     , absolute := d.2, body := ds.1 }, ds.2)

/-- Result of `FULLRE.search(value)` as consumed by `converttotuple`:
which alternative matched and the text of its two axis-token groups
(`RCrow`/`RCcolumn` or `A1column`/`A1row`). -/
inductive FullGroups where
  | rc (rowTok colTok : List Char)
  | a1 (colTok rowTok : List Char)

/-- The anchored `A1` alternative of `FULLRE`:
`(\$?)([A-Z]+)(\$?)(\d+)` over the whole string. -/
def tryA1Full (cs : List Char) : Option FullGroups :=
  match matchA1Col cs with
  | Option.none => Option.none
  | Option.some p =>
    match matchA1Row p.2 with
    | Option.none => Option.none
    | Option.some q =>
      if q.2 = [] then Option.some (.a1 p.1.text q.1.text) else Option.none

/-- The anchored `FULLRE` pattern: the `RC` alternative first, then the
`A1` alternative, each required to span the whole string. -/
def matchFULL (s : String) : Option FullGroups :=
  let cs := s.data
  match matchRCTok 'r' cs with
  | Option.some p =>
    (match matchRCTok 'c' p.2 with
     | Option.some q =>
       if q.2 = [] then Option.some (.rc p.1.text q.1.text) else tryA1Full cs
     | Option.none => tryA1Full cs)
  | Option.none => tryA1Full cs

/-- Outcome of `ROWRE.search` / `COLUMNRE.search`: which alternative
matched and the groups `parsecoordregex` reads from it. -/
inductive AxisMatch where
  | rc (hasOpen : Bool) (n : Int) (hasClose : Bool)
  | a1 (absolute : Bool) (body : List Char)

/-- `ROWRE.search`: leftmost match of
`R(\[?)(-?\d+)(\]?) | (\$?)(\d+)`, the `RC` alternative preferred at
each position. -/
def searchRowAux : List Char → Option AxisMatch
  | [] => Option.none
  | c :: rest =>
    match matchRCTok 'r' (c :: rest) with
    | Option.some p => Option.some (.rc p.1.hasOpen p.1.n p.1.hasClose)
    | Option.none =>
      match matchA1Row (c :: rest) with
      | Option.some p => Option.some (.a1 p.1.absolute p.1.body)
      | Option.none => searchRowAux rest

/-- `COLUMNRE.search`: leftmost match of
`C(\[?)(-?\d+)(\]?) | (\$?)([A-Z]+)`, the `RC` alternative preferred
at each position. -/
def searchColumnAux : List Char → Option AxisMatch
  | [] => Option.none
  | c :: rest =>
    match matchRCTok 'c' (c :: rest) with
    | Option.some p => Option.some (.rc p.1.hasOpen p.1.n p.1.hasClose)
    | Option.none =>
      match matchA1Col (c :: rest) with
      | Option.some p => Option.some (.a1 p.1.absolute p.1.body)
      | Option.none => searchColumnAux rest

/-- Modelled from the spec: openpyxl's `utils.cell.column_index_from_string`
(an external collaborator of this repository, not under `src/`); the spec
states the standard base-26 letter-to-number mapping `A=1 ... Z=26, AA=27 ...`
must be reproduced as a pure function. openpyxl accepts one to three
letters (up to `XFD` = 18278) and raises `ValueError` otherwise. -/
def column_index_from_string (s : String) : Except CoordError Nat :=
  let up := s.data.map Char.toUpper
  if up ≠ [] ∧ up.length ≤ 3 ∧ up.all (fun c => decide ('A' ≤ c ∧ c ≤ 'Z')) then
    .ok (up.foldl (fun acc c => acc * 26 + (c.toNat - 64)) 0)
  else .error .invalidColumnName

/-- Letters of column number `fuel`-bounded (the quotient strictly
decreases, so fuel equal to the column number always suffices). -/
def colLettersAux : Nat → Nat → List Char
  | 0, _ => []
  | _ + 1, 0 => []
  | fuel + 1, m + 1 => colLettersAux fuel (m / 26) ++ [Char.ofNat (65 + m % 26)]

/-- Modelled from the spec: openpyxl's `utils.cell.get_column_letter`
(external collaborator, see `column_index_from_string`); inverse of the
base-26 mapping, defined for 1 ≤ n ≤ 18278, raising `ValueError` outside
that range. -/
def get_column_letter (n : Int) : Except CoordError String :=
  if n < 1 ∨ n > 18278 then .error .columnLetterOutOfRange
  else .ok (String.mk (colLettersAux n.toNat n.toNat))

/-- Body of the `RC` branch of `parsecoordregex` (source lines 329-337):
check the two bracket groups, raise `SyntaxError` naming the missing
bracket when exactly one is present, otherwise build the `Index` with
`absolute = abs1 and abs2`. -/
def rcIndexFromGroups (colrow : Axis) (abs1 abs2 : Bool) (n : Int) : Except CoordError Index :=
  if abs1 ≠ abs2 then
    .error (.malformedBracket (if abs1 then missingCloseBracket else missingOpenBracket))
  else .ok ⟨Option.some colrow, Option.some n, abs1 && abs2⟩

/-- `parsecoordregex(value, colrow)`: search the axis regex, fail with
`ValueError` when nothing matches, otherwise build the `Index` from the
`A1` or `RC` groups. (The source's guard that `colrow` is one of
`"column"`/`"row"` is discharged by the `Axis` type.) -/
def parsecoordregex (value : String) (colrow : Axis) : Except CoordError Index :=
  let m := match colrow with
    | Axis.column => searchColumnAux value.data
    | Axis.row => searchRowAux value.data
  match m with
  | Option.none => .error .patternMismatch
  | Option.some (.a1 absolute body) =>
    match colrow with
    | Axis.column =>
      match column_index_from_string (String.mk body) with
      | .error e => .error e
      | .ok idx => .ok ⟨Option.some Axis.column, Option.some (Int.ofNat idx), absolute⟩
    | Axis.row => .ok ⟨Option.some Axis.row, Option.some (Int.ofNat (digitsToNat body)), absolute⟩
  | Option.some (.rc o n c) => rcIndexFromGroups colrow o c n

/-- Absolute-override handling for a two-element descriptor in
`parseindex` (source lines 284-302): string aliases `"$"`/`"absolute"`
(case-insensitive) mean `True`, the empty string means `False`, other
strings raise; the override must then be a boolean (or `0`/`1`), and it
may not un-mark an already absolute index. -/
def applyAbsolute (index : Index) (a : PyVal) : Except CoordError Index :=
  let absE : Except CoordError Bool :=
    match a with
    | .str s =>
      let l := String.mk (s.data.map Char.toLower)
      if l = dollarString ∨ l = absoluteAliasString then .ok true
      else if l = emptyString then .ok false
      else .error .unknownAbsoluteString
    | .bool b => .ok b
    | .int n => if n = 0 then .ok false else if n = 1 then .ok true else .error .badAbsoluteValue
    | _ => .error .badAbsoluteValue
  match absE with
  | .error e => .error e
  | .ok absolute =>
    if index.absolute && !absolute then .error .absoluteContradiction
    else .ok ⟨index.type, index.value, absolute⟩

/-- `parseindex(value)`, with explicit fuel standing in for CPython's
recursion limit (tuple descriptors recurse on their first element; no
input in this development needs depth beyond 4). Dispatch follows the
source order: `None`, non-bool `int`, `str` (column grammar first, any
failure falls back to the row grammar), `Index` (whose field validation
is total on this typed representation), tuple/list, and everything else
(including booleans and `Coordinate`s) raises the
"not a recognized format" `ValueError`. -/
def parseindexFuel (fuel : Nat) (v : PyVal) : Except CoordError Index :=
  match fuel, v with
  | 0, _ => .error .recursionLimit
  | _ + 1, .none => .ok ⟨Option.none, Option.none, false⟩
  | _ + 1, .int n => .ok ⟨Option.none, Option.some n, true⟩
  | _ + 1, .str s =>
    (match parsecoordregex s Axis.column with
     | .ok i => .ok i
     | .error _ => parsecoordregex s Axis.row)
  | _ + 1, .index i => .ok i
  | f + 1, .list xs =>
    (match xs with
     | [] => .error .indexError
     | [v1] => parseindexFuel f v1
     | [v1, a] =>
       (match parseindexFuel f v1 with
        | .error e => .error e
        | .ok index => applyAbsolute index a)
     | _ => .error .badTupleLength)
  | _ + 1, .bool _ => .error .unrecognizedFormat
  | _ + 1, .coord _ => .error .unrecognizedFormat

/-- `parseindex` at the standing CPython recursion limit. -/
def parseindex (v : PyVal) : Except CoordError Index := parseindexFuel 1000 v

/-- Same-type collision handling of `converttotuple` (source lines
204-217). When both indices are tagged `row` and exactly the second is
absolute, the source's line 211 builds the column index from
`indices[0]` (not `indices[1]`), which is transcribed verbatim here. -/
def sametypePhase (ind0 ind1 : Index) : Except CoordError (Index × Index) :=
  if ind0.type = ind1.type then
    if ind0.type = Option.some Axis.row ∧ ind1.type = Option.some Axis.row then
      if ind0.absolute && !ind1.absolute then
        .ok (ind0, ⟨Option.some Axis.column, ind1.value, ind1.absolute⟩)
      else if ind1.absolute && !ind0.absolute then
        .ok (ind0, ⟨Option.some Axis.column, ind0.value, ind0.absolute⟩)
      else if !ind0.absolute && !ind1.absolute then
        .ok (ind0, ⟨Option.some Axis.column, ind1.value, ind1.absolute⟩)
      else .error .duplicateAxis
    else .error .duplicateAxis
  else .ok (ind0, ind1)

/-- Row/column/ambiguous partition at the tail of `converttotuple`
(source lines 219-235); the `[0]` list indexings are modelled with
`head?`, an empty list giving the organic `IndexError`. -/
def partitionPhase (ind0 ind1 : Index) : Except CoordError (Index × Index) :=
  let inds := [ind0, ind1]
  let row := inds.filter (fun i => decide (i.type = Option.some Axis.row))
  let column := inds.filter (fun i => decide (i.type = Option.some Axis.column))
  let ambiguous := inds.filter (fun i => decide (i.type = Option.none))
  if row ≠ [] ∧ column = [] then
    match row.head?, ambiguous.head? with
    | Option.some r, Option.some a => .ok (r, ⟨Option.some Axis.column, a.value, a.absolute⟩)
    | _, _ => .error .indexError
  else if column ≠ [] ∧ row = [] then
    match column.head?, ambiguous.head? with
    | Option.some c, Option.some a => .ok (⟨Option.some Axis.row, a.value, a.absolute⟩, c)
    | _, _ => .error .indexError
  else
    match row.head?, column.head? with
    | Option.some r, Option.some c => .ok (r, c)
    | _, _ => .error .indexError

/-- The tuple arm of `converttotuple` after both components have been
parsed (source lines 171-235). In the single-absent-value branch the
source computes `goodindex._replace(type=...)` into a local variable
and never stores it back into the list (line 185), so the returned
pair is unchanged there apart from the possible swap; this transcription
keeps that behavior. -/
def converttotuplePair (ind0 ind1 : Index) : Except CoordError (Index × Index) :=
  let nonCount : Nat :=
    (if ind0.value = Option.none then 1 else 0) + (if ind1.value = Option.none then 1 else 0)
  if nonCount ≥ 2 then .error .noIndices
  else if nonCount = 1 then
    let goodind : Nat := if ind0.value ≠ Option.none then 0 else 1
    let goodindex := if goodind = 0 then ind0 else ind1
    if goodindex.type = Option.none then
      .ok (ind0, ind1)
    else if goodindex.type ≠ Option.some (if goodind = 0 then Axis.row else Axis.column) then
      .ok (ind1, ind0)
    else .ok (ind0, ind1)
  else if ind0.type = Option.none ∧ ind1.type = Option.none then
    .ok (⟨Option.some Axis.row, ind0.value, ind0.absolute⟩,
         ⟨Option.some Axis.column, ind1.value, ind1.absolute⟩)
  else
    match sametypePhase ind0 ind1 with
    | .error e => .error e
    | .ok p => partitionPhase p.1 p.2

/-- `converttotuple(value)`: strings go through `FULLRE` and
`parsecoordregex` (row group parsed first, as in the source); anything
that unpacks into exactly two components goes through `parseindex` and
the disambiguation pipeline; everything else raises `TypeError`. -/
def converttotuple (value : PyVal) : Except CoordError (Index × Index) :=
  match value with
  | .str s =>
    (match matchFULL s with
     | Option.some (.rc rTok cTok) =>
       (match parsecoordregex (String.mk rTok) Axis.row with
        | .error e => .error e
        | .ok row =>
          match parsecoordregex (String.mk cTok) Axis.column with
          | .error e => .error e
          | .ok column => .ok (row, column))
     | Option.some (.a1 cTok rTok) =>
       (match parsecoordregex (String.mk rTok) Axis.row with
        | .error e => .error e
        | .ok row =>
          match parsecoordregex (String.mk cTok) Axis.column with
          | .error e => .error e
          | .ok column => .ok (row, column))
     | Option.none => .error .invalidCoordString)
  | .list xs =>
    (match xs with
     | [v1, v2] =>
       (match parseindex v1 with
        | .error e => .error e
        | .ok i1 =>
          match parseindex v2 with
          | .error e => .error e
          | .ok i2 => converttotuplePair i1 i2)
     | _ => .error .notStringOrTuple)
  | _ => .error .notStringOrTuple

/-- `Coordinate.__init__(row, column=False)`: a string row with the
`column` argument left at its `False` default is parsed as a combined
coordinate string (errors propagating untouched); otherwise a `False`
column becomes `None` and the pair goes through `converttotuple`, any
failure being re-raised as `AttributeError`. -/
def Coordinate.make (row column : PyVal) : Except CoordError Coordinate :=
  match row, column with
  | .str s, .bool false =>
    (match converttotuple (.str s) with
     | .error e => .error e
     | .ok p => .ok ⟨p.1, p.2⟩)
  | _, _ =>
    let column2 := match column with
      | .bool false => PyVal.none
      | c => c
    match converttotuple (.list [row, column2]) with
    | .error _ => .error .attributeError
    | .ok p => .ok ⟨p.1, p.2⟩

/-- The `row` property: `self._row.value if self._row else None`
(a named tuple is always truthy, so this is `self._row.value`). -/
def Coordinate.row (c : Coordinate) : Option Int := c._row.value

/-- The `column` property. -/
def Coordinate.column (c : Coordinate) : Option Int := c._column.value

/-- `Coordinate.isabsolute()`. -/
def Coordinate.isabsolute (c : Coordinate) : Bool :=
  c._column.absolute || c._row.absolute

/-- Python string rendering of an optional int inside an f-string
(`None` prints as `"None"`). -/
def pyStrOfOptInt : Option Int → String
  | Option.none => pyNoneString
  | Option.some n => toString n

/-- `Coordinate.toA1string(absolute=True)` (source lines 72-80),
transcribed byte for byte: in the absolute branch the `$` emitted
before the column letter is governed by `self._row.absolute` and the
`$` emitted before the row number by `self._column.absolute`. A `None`
column value makes openpyxl's range check raise (`pyTypeError`). -/
def Coordinate.toA1string (c : Coordinate) (absolute : Bool) : Except CoordError String :=
  match c._column.value with
  | Option.none => .error .pyTypeError
  | Option.some cv =>
    match get_column_letter cv with
    | .error e => .error e
    | .ok letter =>
      if absolute then
        .ok ((if c._row.absolute then dollarString else emptyString) ++ letter ++
             (if c._column.absolute then dollarString else emptyString) ++
             pyStrOfOptInt c._row.value)
      else
        .ok (letter ++ pyStrOfOptInt c._row.value)

/-- `addindices(index1, index2)` (source lines 339-369): two absolute
indices raise `AttributeError`, mismatched types raise `TypeError`
(in that order); otherwise the pair is sorted so an absolute index
comes first, the values are summed (`None` values make Python's `+`
raise, modelled as `noneAddition`), the result takes the first index's
absolute flag, and an absolute result `≤ 0` raises `ValueError`. -/
def addindices (index1 index2 : Index) : Except CoordError Index :=
  if index1.absolute && index2.absolute then .error .doubleAbsolute
  else if index1.type ≠ index2.type then .error .axisMismatch
  else
    let i1 := if index2.absolute then index2 else index1
    let i2 := if index2.absolute then index1 else index2
    match i1.value, i2.value with
    | Option.some v1, Option.some v2 =>
      if i1.absolute ∧ v1 + v2 ≤ 0 then .error .invalidAbsoluteResult
      else .ok ⟨i1.type, Option.some (v1 + v2), i1.absolute⟩
    | _, _ => .error .noneAddition

/-- The `Coordinate + Coordinate` arm of `Coordinate.__add__` (source
lines 84-89): same-axis double-absolute check at the coordinate level,
then per-axis `addindices` (row first), the results re-entering the
`Coordinate` constructor. -/
def addCoordinate (a b : Coordinate) : Except CoordError Coordinate :=
  if (a._row.absolute && b._row.absolute) || (a._column.absolute && b._column.absolute) then
    .error .doubleAbsoluteCoordinate
  else
    match addindices a._row b._row with
    | .error e => .error e
    | .ok r =>
      match addindices a._column b._column with
      | .error e => .error e
      | .ok c => Coordinate.make (.index r) (.index c)

/-- Possible outcomes of `Coordinate.__add__`: a `Coordinate`, a raised
exception, or Python `None` (the implicit return after `except: pass`). -/
inductive AddResult where
  | ok (c : Coordinate)
  | pyNone
  | err (e : CoordError)
deriving DecidableEq, Repr

/-- `Coordinate.__add__(other)` (source lines 82-94): a `Coordinate`
right-hand side is added directly, with errors raised; any other value
is first passed through the `Coordinate` constructor inside
`try: return self + Coordinate(other); except: pass`, so every failure
on that path (normalization or addition) falls through to an implicit
`return None`. -/
def Coordinate.add (self : Coordinate) (other : PyVal) : AddResult :=
  match other with
  | .coord o =>
    (match addCoordinate self o with
     | .ok c => .ok c
     | .error e => .err e)
  | _ =>
    match Coordinate.make other (.bool false) with
    | .error _ => .pyNone
    | .ok o =>
      match addCoordinate self o with
      | .ok c => .ok c
      | .error _ => .pyNone

/-- Whether an `__add__` outcome reports a failure (a raised error). -/
def AddResult.isErr : AddResult → Bool
  | .err _ => true
  | _ => false

/-- Whether an `__add__` outcome is an actual `Coordinate`. -/
def AddResult.isCoord : AddResult → Bool
  | .ok _ => true
  | _ => false

/- String inputs used by the claim theorems. -/

def sDollarB1 : String := "$B1"

def sR1C1 : String := "R1C1"

def sRbrC : String := "R[1]C[-2]"

def sRopenC : String := "R[1C1"

def sBangBang : String := "!!"

/-- C1: the honor-absolute letter-digit rendering and the parser do not
round-trip. `toA1string` emits the row's `$` before the column letter
and the column's `$` before the row digits, while the `A1` grammar
reads a `$` before the letters as marking the column absolute and a `$`
before the digits as marking the row absolute. For the Reference with
row `1` absolute and column `2` relative, rendering yields `$B1` and
parsing that back yields row `1` relative, column `2` absolute — a
Reference different from the original, refuting the claimed round-trip. -/
theorem C1_formatter_parser_mismatch :
    Coordinate.toA1string
        ⟨⟨Option.some Axis.row, Option.some 1, true⟩,
         ⟨Option.some Axis.column, Option.some 2, false⟩⟩ true = .ok sDollarB1 ∧
    Coordinate.make (.str sDollarB1) (.bool false) =
      .ok ⟨⟨Option.some Axis.row, Option.some 1, false⟩,
           ⟨Option.some Axis.column, Option.some 2, true⟩⟩ ∧
    (⟨⟨Option.some Axis.row, Option.some 1, false⟩,
      ⟨Option.some Axis.column, Option.some 2, true⟩⟩ : Coordinate) ≠
      ⟨⟨Option.some Axis.row, Option.some 1, true⟩,
       ⟨Option.some Axis.column, Option.some 2, false⟩⟩ := by
  exact ⟨by decide, by decide, by decide⟩

/-- C2: disambiguating two row-tagged indices where only the second is
absolute does not keep both values. The source's line 211 rebuilds the
column index from `indices[0]` instead of retagging `indices[1]`, so
for the pair `(Index(row,1,relative), Index(row,2,absolute))` the
result is `(Index(row,1,relative), Index(column,1,relative))`: the
absolute index's value `2` (and its absolute flag) appear nowhere in
the output, refuting the claim for the absolute-second ordering. -/
theorem C2_duplicate_row_resolution_bug :
    converttotuple (.list [.index ⟨Option.some Axis.row, Option.some 1, false⟩,
        .index ⟨Option.some Axis.row, Option.some 2, true⟩]) =
      .ok (⟨Option.some Axis.row, Option.some 1, false⟩,
           ⟨Option.some Axis.column, Option.some 1, false⟩) ∧
    (⟨Option.some Axis.row, Option.some 1, false⟩ : Index).value ≠ Option.some 2 ∧
    (⟨Option.some Axis.column, Option.some 1, false⟩ : Index).value ≠ Option.some 2 ∧
    (⟨Option.some Axis.column, Option.some 1, false⟩ : Index).absolute = false := by
  decide

/-- C3: a constructed Reference can hold an Unknown-tagged present
Index. Constructing from the descriptor pair `(None, 5)` succeeds, but
because `converttotuple` computes `goodindex._replace(type=...)` into a
local and never stores it back (source line 185), the column slot holds
`Index(None, 5, True)` — a present Index whose axis tag is still
Unknown, refuting the claimed invariant. -/
theorem C3_unknown_tag_retained :
    Coordinate.make .none (.int 5) =
      .ok ⟨⟨Option.none, Option.none, false⟩, ⟨Option.none, Option.some 5, true⟩⟩ ∧
    (⟨Option.none, Option.some 5, true⟩ : Index).value ≠ Option.none ∧
    (⟨Option.none, Option.some 5, true⟩ : Index).type = Option.none := by
  decide

/-- C4 counterexample: normalizing the raw right-hand descriptor
`True` fails (the constructor raises `AttributeError`), yet addition
returns Python `None` — neither a raised/returned error nor a
Reference — because `__add__` wraps the conversion in
`try: ... except: pass` and falls through to an implicit `return None`.
This refutes the claim that addition reports the specific failure. -/
theorem C4_add_swallows_errors_cex :
    Coordinate.make (.bool true) (.bool false) = .error .attributeError ∧
    (⟨⟨Option.some Axis.row, Option.some 1, false⟩,
      ⟨Option.some Axis.column, Option.some 1, false⟩⟩ : Coordinate).add (.bool true) = .pyNone ∧
    AddResult.isErr .pyNone = false ∧
    AddResult.isCoord .pyNone = false := by
  decide

/-- C4 (amended): Reference-level addition with a non-Coordinate
right-hand side first normalizes the descriptor through the
`Coordinate` constructor and then applies the addition rule, but every
failure on that path — the normalization error or a subsequent
addition error — makes `__add__` return Python `None` instead of
reporting the error; only a successful addition yields a Coordinate. -/
theorem C4_add_returns_none_on_failure (c : Coordinate) (other : PyVal)
    (hnc : ∀ o : Coordinate, other ≠ .coord o) :
    (∀ e : CoordError, Coordinate.make other (.bool false) = .error e →
       c.add other = .pyNone) ∧
    (∀ o r : Coordinate, Coordinate.make other (.bool false) = .ok o →
       addCoordinate c o = .ok r → c.add other = .ok r) ∧
    (∀ (o : Coordinate) (e : CoordError), Coordinate.make other (.bool false) = .ok o →
       addCoordinate c o = .error e → c.add other = .pyNone) := by
  cases other with
  | coord o => exact absurd rfl (hnc o)
  | none =>
    refine ⟨fun e he => ?_, fun o r ho hr => ?_, fun o e ho he => ?_⟩ <;>
      simp [Coordinate.add, *]
  | int n =>
    refine ⟨fun e he => ?_, fun o r ho hr => ?_, fun o e ho he => ?_⟩ <;>
      simp [Coordinate.add, *]
  | bool b =>
    refine ⟨fun e he => ?_, fun o r ho hr => ?_, fun o e ho he => ?_⟩ <;>
      simp [Coordinate.add, *]
  | str s =>
    refine ⟨fun e he => ?_, fun o r ho hr => ?_, fun o e ho he => ?_⟩ <;>
      simp [Coordinate.add, *]
  | index i =>
    refine ⟨fun e he => ?_, fun o r ho hr => ?_, fun o e ho he => ?_⟩ <;>
      simp [Coordinate.add, *]
  | list xs =>
    refine ⟨fun e he => ?_, fun o r ho hr => ?_, fun o e ho he => ?_⟩ <;>
      simp [Coordinate.add, *]

/-- C4 witness: for the concrete Reference `B2` and the unparseable
descriptor string `"!!"`, normalization fails and addition returns
Python `None`. -/
theorem C4_add_returns_none_on_failure_witness :
    (⟨⟨Option.some Axis.row, Option.some 2, false⟩,
      ⟨Option.some Axis.column, Option.some 2, false⟩⟩ : Coordinate).add (.str sBangBang) =
      .pyNone :=
  (C4_add_returns_none_on_failure
      ⟨⟨Option.some Axis.row, Option.some 2, false⟩,
       ⟨Option.some Axis.column, Option.some 2, false⟩⟩
      (.str sBangBang) (fun _ h => PyVal.noConfusion h)).1
    CoordError.invalidCoordString (by decide)

/-- C5 counterexample: for two Index values whose axes differ while
both are absolute, `addindices` raises `DoubleAbsolute`
(`AttributeError`), not the `AxisMismatch` (`TypeError`) the claim
requires for differing axes: the double-absolute check runs first. -/
theorem C5_error_precedence_cex :
    addindices ⟨Option.some Axis.row, Option.some 1, true⟩
        ⟨Option.some Axis.column, Option.some 1, true⟩ = .error .doubleAbsolute ∧
    (Except.error CoordError.doubleAbsolute : Except CoordError Index) ≠
      .error .axisMismatch ∧
    (⟨Option.some Axis.row, Option.some 1, true⟩ : Index).type ≠
      (⟨Option.some Axis.column, Option.some 1, true⟩ : Index).type := by
  decide

/-- C5 (amended): for two Index values carrying integer values,
`addindices` raises `DoubleAbsolute` whenever both are absolute (this
check precedes and shadows the axis check), raises `AxisMismatch` when
at most one is absolute and the axes differ, and otherwise succeeds
with the sum of the values and an absolute flag equal to the
disjunction of the operands' flags — except that an absolute result
with value ≤ 0 raises `InvalidAbsoluteResult` (relative results are
not floor-checked). -/
theorem C5_addindices_behavior (t1 t2 : Option Axis) (v1 v2 : Int) (a1 a2 : Bool) :
    (a1 = true → a2 = true →
       addindices ⟨t1, Option.some v1, a1⟩ ⟨t2, Option.some v2, a2⟩ =
         .error .doubleAbsolute) ∧
    ((a1 = false ∨ a2 = false) → t1 ≠ t2 →
       addindices ⟨t1, Option.some v1, a1⟩ ⟨t2, Option.some v2, a2⟩ =
         .error .axisMismatch) ∧
    (a1 = false → a2 = false → t1 = t2 →
       addindices ⟨t1, Option.some v1, a1⟩ ⟨t2, Option.some v2, a2⟩ =
         .ok ⟨t1, Option.some (v1 + v2), false⟩) ∧
    ((a1 = true ∧ a2 = false) ∨ (a1 = false ∧ a2 = true) → t1 = t2 →
       (v1 + v2 ≤ 0 →
          addindices ⟨t1, Option.some v1, a1⟩ ⟨t2, Option.some v2, a2⟩ =
            .error .invalidAbsoluteResult) ∧
       (0 < v1 + v2 →
          addindices ⟨t1, Option.some v1, a1⟩ ⟨t2, Option.some v2, a2⟩ =
            .ok ⟨t1, Option.some (v1 + v2), true⟩)) := by
  refine ⟨?_, ?_, ?_, ?_⟩
  · intro h1 h2
    subst h1
    subst h2
    simp [addindices]
  · intro hor hne
    have hcond : (a1 && a2) = false := by
      rcases hor with h | h <;> subst h <;> simp
    simp [addindices, hcond, hne]
  · intro h1 h2 ht
    subst h1
    subst h2
    subst ht
    simp [addindices]
  · intro hor ht
    subst ht
    rcases hor with ⟨h1, h2⟩ | ⟨h1, h2⟩ <;> subst h1 <;> subst h2
    · constructor
      · intro hle
        simp [addindices, hle]
      · intro hlt
        have hc : ¬ (v1 + v2 ≤ 0) := by omega
        simp [addindices, hc]
    · constructor
      · intro hle
        have hc : v2 + v1 ≤ 0 := by omega
        simp [addindices, hc]
      · intro hlt
        have hc : ¬ (v2 + v1 ≤ 0) := by omega
        simp [addindices, hc, Int.add_comm]
        omega

/-- C5 witness: adding the absolute row index `2` to the relative row
index `1` succeeds with the absolute row index `3`. -/
theorem C5_addindices_behavior_witness :
    addindices ⟨Option.some Axis.row, Option.some 2, true⟩
        ⟨Option.some Axis.row, Option.some 1, false⟩ =
      .ok ⟨Option.some Axis.row, Option.some 3, true⟩ := by
  have h := (C5_addindices_behavior (Option.some Axis.row) (Option.some Axis.row)
      2 1 true false).2.2.2 (Or.inl ⟨rfl, rfl⟩) rfl
  exact h.2 (by norm_num)

/-- C6: in the relative-offset grammar the absolute flag of a matched
axis token is `abs1 and abs2` — true exactly when both the opening and
the closing bracket are present — and a token with exactly one bracket
raises `SyntaxError` naming the missing bracket (`]` when the opening
bracket is present, `[` otherwise). Concretely, `R[1]C[-2]` parses to
two absolute indices, `R1C1` to two relative ones, and `R[1C1` raises
the malformed-bracket error for the missing `]`. -/
theorem C6_bracket_absolute :
    (∀ (ax : Axis) (n : Int),
       rcIndexFromGroups ax true true n = .ok ⟨Option.some ax, Option.some n, true⟩ ∧
       rcIndexFromGroups ax false false n = .ok ⟨Option.some ax, Option.some n, false⟩ ∧
       rcIndexFromGroups ax true false n = .error (.malformedBracket missingCloseBracket) ∧
       rcIndexFromGroups ax false true n = .error (.malformedBracket missingOpenBracket)) ∧
    converttotuple (.str sRbrC) =
      .ok (⟨Option.some Axis.row, Option.some 1, true⟩,
           ⟨Option.some Axis.column, Option.some (-2), true⟩) ∧
    converttotuple (.str sR1C1) =
      .ok (⟨Option.some Axis.row, Option.some 1, false⟩,
           ⟨Option.some Axis.column, Option.some 1, false⟩) ∧
    converttotuple (.str sRopenC) = .error (.malformedBracket missingCloseBracket) := by
  exact ⟨fun ax n => ⟨rfl, rfl, rfl, rfl⟩, by decide, by decide, by decide⟩

/-- C7: a bare integer descriptor of any sign normalizes to an
absolute Index with Unknown axis and that value. -/
theorem C7_int_descriptor_absolute (n : Int) :
    parseindex (.int n) = .ok ⟨Option.none, Option.some n, true⟩ := rfl

/-- C8: the descriptor pair `(None, 5)` constructs a Reference whose
column value is `5` and whose row value is absent, and `(5, None)` one
whose row value is `5` and whose column value is absent: the single
present component is assigned to the slot named by its position. -/
theorem C8_single_axis_position :
    Coordinate.make .none (.int 5) =
      .ok ⟨⟨Option.none, Option.none, false⟩, ⟨Option.none, Option.some 5, true⟩⟩ ∧
    (⟨⟨Option.none, Option.none, false⟩,
      ⟨Option.none, Option.some 5, true⟩⟩ : Coordinate).column = Option.some 5 ∧
    (⟨⟨Option.none, Option.none, false⟩,
      ⟨Option.none, Option.some 5, true⟩⟩ : Coordinate).row = Option.none ∧
    Coordinate.make (.int 5) .none =
      .ok ⟨⟨Option.none, Option.some 5, true⟩, ⟨Option.none, Option.none, false⟩⟩ ∧
    (⟨⟨Option.none, Option.some 5, true⟩,
      ⟨Option.none, Option.none, false⟩⟩ : Coordinate).row = Option.some 5 ∧
    (⟨⟨Option.none, Option.some 5, true⟩,
      ⟨Option.none, Option.none, false⟩⟩ : Coordinate).column = Option.none := by
  decide

/-- C9: boolean descriptors are excluded from the integer branch of
`parseindex` and match no other recognized shape, so both `True` and
`False` raise the "not a recognized format" `ValueError` instead of
normalizing to the Index values 1 or 0. -/
theorem C9_bool_descriptor_rejected :
    parseindex (.bool true) = .error .unrecognizedFormat ∧
    parseindex (.bool false) = .error .unrecognizedFormat ∧
    (Except.error CoordError.unrecognizedFormat : Except CoordError Index) ≠
      .ok ⟨Option.none, Option.some 1, true⟩ ∧
    (Except.error CoordError.unrecognizedFormat : Except CoordError Index) ≠
      .ok ⟨Option.none, Option.some 0, true⟩ := by
  decide

/-- C10: every integer n ≤ 0 normalizes to the absolute Index
`(Unknown, n, True)` and constructs a Reference carrying that Index
without any positivity check; the non-positive-absolute rule surfaces
only in `addindices`, where an absolute result with value n ≤ 0
(here 1 + (n - 1)) raises `InvalidAbsoluteResult`. -/
theorem C10_nonpositive_integer_allowed (n : Int) (h : n ≤ 0) :
    parseindex (.int n) = .ok ⟨Option.none, Option.some n, true⟩ ∧
    Coordinate.make (.int n) (.bool false) =
      .ok ⟨⟨Option.none, Option.some n, true⟩, ⟨Option.none, Option.none, false⟩⟩ ∧
    addindices ⟨Option.some Axis.row, Option.some 1, true⟩
        ⟨Option.some Axis.row, Option.some (n - 1), false⟩ =
      .error .invalidAbsoluteResult := by
  refine ⟨rfl, rfl, ?_⟩
  have hc : (1 : Int) + (n - 1) ≤ 0 := by omega
  simp [addindices, hc]
  omega

/-- C10 witness: the concrete case n = -3. -/
theorem C10_nonpositive_integer_allowed_witness :
    parseindex (.int (-3)) = .ok ⟨Option.none, Option.some (-3), true⟩ ∧
    Coordinate.make (.int (-3)) (.bool false) =
      .ok ⟨⟨Option.none, Option.some (-3), true⟩, ⟨Option.none, Option.none, false⟩⟩ ∧
    addindices ⟨Option.some Axis.row, Option.some 1, true⟩
        ⟨Option.some Axis.row, Option.some (-4), false⟩ =
      .error .invalidAbsoluteResult :=
  C10_nonpositive_integer_allowed (-3) (by norm_num)
